import Mathlib

/-!
Verification of the optic-inventory collection engine
(`optic_inventory0.3.py`) against its natural-language design spec.

The Python source is shallowly embedded below:
* JSON-decoded Python values become `JVal`; Python dict keys become `PyKey`.
* Python exceptions become `PyExc`; fallible code returns `Except PyExc _`.
* The external transport (netmiko session) is a record of `Except`-valued
  operations; the external `json.loads` call is passed in as a function
  `String -> Except Unit JVal` (its result is all the source consumes).
* Python dicts are association lists with insert-or-overwrite (`upsert`),
  which preserves first-insertion order exactly as CPython dicts do.
-/

namespace OpticInventory

/-- A value produced by decoding JSON (`json.loads`): Python `None`, `bool`,
`int`, `str`, `list`, `dict`. -/
inductive JVal where
  | null : JVal
  | bool : Bool → JVal
  | num : Int → JVal
  | str : String → JVal
  | arr : List JVal → JVal
  | obj : List (String × JVal) → JVal

/-- A hashable Python value, usable as a dict key (`optics_info[name] = ...`).
Lists and dicts are unhashable and never become keys. -/
inductive PyKey where
  | null : PyKey
  | bool : Bool → PyKey
  | num : Int → PyKey
  | str : String → PyKey
deriving DecidableEq

/-- A Python exception, as observed by the source's handlers: only its
`str(e)` rendering matters to `process_device`/`main`. -/
inductive PyExc where
  | exc : String → PyExc
  | attributeError : String → String → PyExc
  | typeError : String → PyExc
deriving DecidableEq

/-- `str(e)` for an exception, as used in `error_message = str(e)`. -/
def PyExc.str : PyExc → String
  | .exc m => m
  | .attributeError ty attr =>
      "\x27" ++ ty ++ "\x27 object has no attribute \x27" ++ attr ++ "\x27"
  | .typeError m => m

/-- Python's type name for a decoded value (used in exception messages). -/
def typeName : JVal → String
  | .null => "NoneType"
  | .bool _ => "bool"
  | .num _ => "int"
  | .str _ => "str"
  | .arr _ => "list"
  | .obj _ => "dict"

/-- Python truthiness of a decoded value (`if name and descr and pid:`). -/
def truthy : JVal → Bool
  | .null => false
  | .bool b => b
  | .num n => n != 0
  | .str s => s != ""
  | .arr xs => !xs.isEmpty
  | .obj kvs => !kvs.isEmpty

/-- Is the value an object (a decoded JSON dict)? -/
def JVal.isObj : JVal → Bool
  | .obj _ => true
  | _ => false

/-- Is the value hashable (usable as a dict key)? -/
def JVal.hashable : JVal → Bool
  | .arr _ => false
  | .obj _ => false
  | _ => true

/-- Convert a hashable value to a dict key (junk on unhashable values,
which `toKeyE` rejects before this is ever relied on). -/
def toKey : JVal → PyKey
  | .null => .null
  | .bool b => .bool b
  | .num n => .num n
  | .str s => .str s
  | .arr _ => .null
  | .obj _ => .null

/-- Using a value as a dict key: unhashable values raise `TypeError`. -/
def toKeyE : JVal → Except PyExc PyKey
  | .arr _ => .error (.typeError "unhashable type: \x27list\x27")
  | .obj _ => .error (.typeError "unhashable type: \x27dict\x27")
  | v => .ok (toKey v)

/-- Lookup in a decoded JSON object's key/value list. -/
def jlookup : List (String × JVal) → String → Option JVal
  | [], _ => none
  | (k', v) :: t, k => if k' = k then some v else jlookup t k

/-- Python `v.get(k, d)`: returns the value or the default on a dict,
raises `AttributeError` on anything else. -/
def pyGetD (v : JVal) (k : String) (d : JVal) : Except PyExc JVal :=
  match v with
  | .obj kvs => .ok ((jlookup kvs k).getD d)
  | _ => .error (.attributeError (typeName v) "get")

/-- Python `for item in v`: lists yield elements, dicts yield keys,
strings yield one-character strings, everything else raises `TypeError`. -/
def pyIter : JVal → Except PyExc (List JVal)
  | .arr xs => .ok xs
  | .obj kvs => .ok (kvs.map (fun p => .str p.1))
  | .str s => .ok (s.data.map (fun c => .str (String.mk [c])))
  | v => .error (.typeError ("\x27" ++ typeName v ++ "\x27 object is not iterable"))

/-- Python dict assignment `d[k] = v` on an association list: overwrite in
place if the key is present (keeping its position), else append. -/
def upsert {α β : Type} [DecidableEq α] (k : α) (v : β) :
    List (α × β) → List (α × β)
  | [] => [(k, v)]
  | (k', v') :: t => if k' = k then (k', v) :: t else (k', v') :: upsert k v t

/-- Association-list lookup (Python `d.get(k)` on a dict we built). -/
def alookup {α β : Type} [DecidableEq α] (k : α) : List (α × β) → Option β
  | [] => none
  | (k', v) :: t => if k' = k then some v else alookup k t

/-- Python substring test `needle in hay` on character lists. -/
def listContains (needle : List Char) : List Char → Bool
  | [] => needle.isPrefixOf []
  | c :: t => needle.isPrefixOf (c :: t) || listContains needle t

/-- Python `needle in hay` for strings. -/
def strContains (hay needle : String) : Bool :=
  listContains needle.data hay.data

/-- Python `s.lower()` (ASCII, which is all the source's keywords use). -/
def lowerStr (s : String) : String :=
  String.mk (s.data.map Char.toLower)

/-- Helper for `splitLines`: accumulate the current line (reversed). -/
def splitLinesAux : List Char → List Char → List String
  | [], cur => [String.mk cur.reverse]
  | c :: t, cur =>
    if c == '\n' then String.mk cur.reverse :: splitLinesAux t []
    else splitLinesAux t (c :: cur)

/-- Python `output.split('\n')`. -/
def splitLines (s : String) : List String := splitLinesAux s.data []

/-! ## The `re` pattern used by the free-text inventory parser

`r'NAME: "(.*)",\s+DESCR: "(.*)"\s+PID: (\S+)\s*,\s*VID: (\S+)\s*,\s*SN: (\S+)'`

A small backtracking matcher: the pattern is a sequence of literals and
greedy character-class repetitions (`.*`, `\s+`, `\s*`, `\S+`), matched with
the same longest-first backtracking and leftmost-scan semantics `re.finditer`
uses for this pattern. -/

/-- One piece of the sequence pattern: a literal, a greedy star over a
character class, or a greedy plus. The `Bool` marks a capturing group. -/
inductive RPiece where
  | lit : List Char → RPiece
  | star : (Char → Bool) → Bool → RPiece
  | plus : (Char → Bool) → Bool → RPiece

/-- Python `\s` (ASCII whitespace). -/
def pyIsSpace (c : Char) : Bool :=
  c == ' ' || c == '\t' || c == '\n' || c == '\r' || c == '\x0b' || c == '\x0c'

/-- Python `.` without `DOTALL`: any character except a newline. -/
def pyDot (c : Char) : Bool := c != '\n'

/-- Python `\S`. -/
def pyNonSpace (c : Char) : Bool := !(pyIsSpace c)

/-- `[n, n-1, ..., 0]`: repetition counts in greedy (longest-first) order. -/
def revRange (n : Nat) : List Nat := (List.range n).reverse

/-- Prepend a captured group if the piece is capturing. -/
def consCap (cap : Bool) (xs : List Char) (caps : List (List Char)) :
    List (List Char) :=
  if cap then xs :: caps else caps

/-- Match a piece sequence at the start of `s`, greedily and with
backtracking; returns the captured groups and the rest of the input. -/
def matchPieces : List RPiece → List Char → Option (List (List Char) × List Char)
  | [], s => some ([], s)
  | .lit l :: ps, s =>
      if l.isPrefixOf s then matchPieces ps (s.drop l.length) else none
  | .star f cap :: ps, s =>
      (revRange ((s.takeWhile f).length + 1)).findSome? (fun k =>
        (matchPieces ps (s.drop k)).map
          (fun pr => (consCap cap (s.take k) pr.1, pr.2)))
  | .plus f cap :: ps, s =>
      ((revRange ((s.takeWhile f).length + 1)).filter (fun k => k != 0)).findSome?
        (fun k =>
          (matchPieces ps (s.drop k)).map
            (fun pr => (consCap cap (s.take k) pr.1, pr.2)))

/-- `re.finditer` scan: try the pattern at every position from the left,
emit each match's groups, and continue after the matched text. The fuel is
an upper bound on scan steps (each step consumes at least one character). -/
def finditerAux (pat : List RPiece) : Nat → List Char → List (List (List Char))
  | 0, _ => []
  | fuel + 1, s =>
    match matchPieces pat s with
    | some (caps, rem) =>
      if rem.length < s.length then caps :: finditerAux pat fuel rem
      else
        match s with
        | [] => [caps]
        | _ :: t => caps :: finditerAux pat fuel t
    | none =>
      match s with
      | [] => []
      | _ :: t => finditerAux pat fuel t

/-- All matches of the pattern in `s`, as lists of captured groups. -/
def finditer (pat : List RPiece) (s : List Char) : List (List (List Char)) :=
  finditerAux pat (s.length + 1) s

/-- The source's inventory pattern, piece by piece. -/
def invPattern : List RPiece :=
  [ .lit "NAME: \"".data, .star pyDot true, .lit "\",".data,
    .plus pyIsSpace false,
    .lit "DESCR: \"".data, .star pyDot true, .lit "\"".data,
    .plus pyIsSpace false,
    .lit "PID: ".data, .plus pyNonSpace true,
    .star pyIsSpace false, .lit ",".data, .star pyIsSpace false,
    .lit "VID: ".data, .plus pyNonSpace true,
    .star pyIsSpace false, .lit ",".data, .star pyIsSpace false,
    .lit "SN: ".data, .plus pyNonSpace true ]

/-! ## Data model -/

/-- One discovered optic: the per-port dict the parser builds
(`Description`/`PID`/`VID`/`SN`/`Operational_State`). -/
structure PortRec where
  descr : JVal
  pid : JVal
  vid : JVal
  sn : JVal
  state : String

/-- The per-device `optics_info` dict, keyed by port name. -/
def OpticsDict : Type := List (PyKey × PortRec)

/-! ## Output Parser (`parse_inventory_output`) -/

/-- One loop body of the NX-OS row loop: fetch the five fields with
`item.get`, keep the row if `name and descr and pid` is truthy, key the
record by `name`. -/
def rowStep (acc : OpticsDict) (item : JVal) : Except PyExc OpticsDict :=
  match pyGetD item "name" .null with
  | .error e => .error e
  | .ok name =>
    match pyGetD item "desc" .null with
    | .error e => .error e
    | .ok descr =>
      match pyGetD item "productid" (.str "N/A") with
      | .error e => .error e
      | .ok pid =>
        match pyGetD item "vid" (.str "N/A") with
        | .error e => .error e
        | .ok vid =>
          match pyGetD item "serialnum" (.str "N/A") with
          | .error e => .error e
          | .ok sn =>
            if truthy name && truthy descr && truthy pid then
              match toKeyE name with
              | .error e => .error e
              | .ok k =>
                .ok (upsert k
                  { descr := descr, pid := pid, vid := vid, sn := sn,
                    state := "Unknown" } acc)
            else .ok acc

/-- The NX-OS row loop. -/
def foldRows : List JVal → OpticsDict → Except PyExc OpticsDict
  | [], acc => .ok acc
  | item :: rest, acc =>
    match rowStep acc item with
    | .error e => .error e
    | .ok acc2 => foldRows rest acc2

/-- NX-OS branch of `parse_inventory_output`, taking the result of the
external `json.loads(output)` call. A decode failure (`json.JSONDecodeError`)
is caught and leaves `optics_info` empty; any other exception raised while
walking the decoded data propagates (only `JSONDecodeError` is handled). -/
def parse_inventory_nxos (loaded : Except Unit JVal) : Except PyExc OpticsDict :=
  match loaded with
  | .error _ => .ok []
  | .ok inventory_data =>
    match pyGetD inventory_data "TABLE_inv" (.obj []) with
    | .error e => .error e
    | .ok tbl =>
      match pyGetD tbl "ROW_inv" (.arr []) with
      | .error e => .error e
      | .ok rows =>
        match pyIter rows with
        | .error e => .error e
        | .ok items => foldRows items []

/-- The name filter on free-text matches:
`'port' in name.lower() or 'GigE' in name or 'TenGigE' in name`. -/
def keepName (name : String) : Bool :=
  strContains (lowerStr name) "port" || strContains name "GigE" ||
    strContains name "TenGigE"

/-- The five captured groups of one free-text match, if the group list has
the pattern's shape. -/
def matchName (g : List (List Char)) : Option (List Char) :=
  match g with
  | [n, _, _, _, _] => some n
  | _ => none

/-- One loop body over the free-text matches. -/
def ftStep (acc : OpticsDict) (g : List (List Char)) : OpticsDict :=
  match g with
  | [n, d, p, v, sn] =>
    let name := String.mk n
    if keepName name then
      upsert (.str name)
        { descr := .str (String.mk d), pid := .str (String.mk p),
          vid := .str (String.mk v), sn := .str (String.mk sn),
          state := "Unknown" } acc
    else acc
  | _ => acc

/-- Fold the free-text matches into `optics_info`. -/
def freetextFold (ms : List (List (List Char))) : OpticsDict :=
  ms.foldl ftStep []

/-- Free-text (IOS-XR / IOS-XE) branch of `parse_inventory_output`. -/
def parse_inventory_freetext (output : String) : OpticsDict :=
  freetextFold (finditer invPattern output.data)

/-- `parse_inventory_output(output, platform)`; `loads` stands for the
external `json.loads`. -/
def parse_inventory_output (output : String) (loads : String → Except Unit JVal)
    (platform : Option String) : Except PyExc OpticsDict :=
  if platform = some "cisco_nxos" then parse_inventory_nxos (loads output)
  else .ok (parse_inventory_freetext output)

/-! ## Status Normalizer (`get_interface_status` parsing) -/

/-- IOS-XR/XE branch: scan the output's lines for the first containing
`"line protocol is"` (the loop breaks there) and combine
`status`/`protocol_status` exactly as lines 96-120 of the source do; both
default to `"DOWN"`. -/
def xrParseStatus (output : String) : String :=
  match (splitLines output).find?
      (fun l => strContains (lowerStr l) "line protocol is") with
  | none => "DOWN/DOWN"
  | some line =>
    let ll := lowerStr line
    if strContains ll "up" then
      if strContains ll "administratively down" then "ADMIN_DOWN/DOWN"
      else
        if strContains ll "line protocol is up" then "UP/UP" else "UP/DOWN"
    else "DOWN/DOWN"

/-- The NX-OS loop guard: `"is" in line_lower and ("up" in line_lower or
"down" in line_lower)`. -/
def nxosGuard (l : String) : Bool :=
  let ll := lowerStr l
  strContains ll "is" && (strContains ll "up" || strContains ll "down")

/-- The NX-OS inner keyword chain on the (lowered) guard line; the final
branch leaves the default-initialized `status = "DOWN"` untouched. -/
def nxosLineStatus (ll : String) : String :=
  if strContains ll "administratively down" then "ADMIN_DOWN"
  else if strContains ll "is up" then
    if strContains ll "connected" then "UP"
    else if strContains ll "notconnect" then "DOWN"
    else "UP"
  else if strContains ll "is down" then "DOWN"
  else "DOWN"

/-- NX-OS branch: scan lines, break at the first guard line, default
`"DOWN"`. -/
def nxosParseStatus (output : String) : String :=
  match (splitLines output).find? nxosGuard with
  | none => "DOWN"
  | some line => nxosLineStatus (lowerStr line)

/-! ## Device Session Driver (`process_device`) and transport model -/

/-- Python `str()` of a dict key, for `f"show interface {intf_name}"`. -/
def pyKeyStr : PyKey → String
  | .str s => s
  | .num n => toString n
  | .bool true => "True"
  | .bool false => "False"
  | .null => "None"

/-- The external netmiko session, reduced to the capabilities the engine
consumes: connect, send a command for text, disconnect. -/
structure Transport where
  connect : Except PyExc Unit
  send : String → Except PyExc String
  disconnect : Except PyExc Unit

/-- The device descriptor, as far as the engine reads it
(`device_info.get('device_type')`); the transport parameters are owned by
the external collaborator. -/
structure DevInfo where
  device_type : Option String
deriving DecidableEq

/-- Python `f"...{platform}"` rendering of the platform tag. -/
def pyOptStr : Option String → String
  | none => "None"
  | some s => s

/-- The platform dispatch of `process_device` (lines 174-182): the inventory
command for supported platforms, `none` for an unsupported tag. -/
def platformCommand (p : Option String) : Option String :=
  if p = some "cisco_xr" then some "show inventory"
  else if p = some "cisco_xe" then some "show inventory"
  else if p = some "cisco_nxos" then some "show inventory all | json"
  else none

/-- One iteration of the `get_interface_status` loop for interface `k`:
platform branch, send `show interface <name>`, parse, and store; any
exception from the send is caught *inside the loop* (`except` at lines
123-125) and records `"ERROR"` for that one interface; an unrecognized
platform records nothing. -/
def gisStep (send : String → Except PyExc String) (platform : Option String)
    (acc : List (PyKey × String)) (k : PyKey) : List (PyKey × String) :=
  if platform = some "cisco_nxos" then
    match send ("show interface " ++ pyKeyStr k) with
    | .ok output => upsert k (nxosParseStatus output) acc
    | .error _ => upsert k "ERROR" acc
  else if platform = some "cisco_xr" || platform = some "cisco_xe" then
    match send ("show interface " ++ pyKeyStr k) with
    | .ok output => upsert k (xrParseStatus output) acc
    | .error _ => upsert k "ERROR" acc
  else acc

/-- `get_interface_status(connection, platform, interface_names)`. -/
def get_interface_status (send : String → Except PyExc String)
    (platform : Option String) (names : List PyKey) : List (PyKey × String) :=
  names.foldl (gisStep send platform) []

/-- The merge step (lines 198-201): write each interface's queried state
into its record, defaulting to `"Unknown"` when the status dict has no
entry. -/
def mergeStates (optics : OpticsDict) (st : List (PyKey × String)) : OpticsDict :=
  optics.map (fun p => (p.1, { p.2 with state := (alookup p.1 st).getD "Unknown" }))

/-- The body of `process_device`'s `try:` block, producing the
`(optics_info, error_message)` part of the result; any uncaught exception
escapes as `.error`. The device name is prepended by `process_device`
itself, which never changes it. -/
def process_deviceBody (info : DevInfo) (loads : String → Except Unit JVal)
    (t : Transport) : Except PyExc (OpticsDict × Option String) :=
  match t.connect with
  | .error e => .error e
  | .ok _ =>
    match platformCommand info.device_type with
    | none => .ok ([], some ("Unsupported platform: " ++ pyOptStr info.device_type))
    | some command =>
      match t.send command with
      | .error e => .error e
      | .ok output =>
        match parse_inventory_output output loads info.device_type with
        | .error e => .error e
        | .ok optics0 =>
          let optics :=
            if optics0.isEmpty then optics0
            else
              mergeStates optics0
                (get_interface_status t.send info.device_type
                  (optics0.map Prod.fst))
          match t.disconnect with
          | .error e => .error e
          | .ok _ => .ok (optics, none)

/-- `process_device(device_name, device_info)`: the whole acquisition
sequence under one `try/except Exception`; a caught exception yields
`(device_name, {}, str(e))`. -/
def process_device (name : String) (info : DevInfo)
    (loads : String → Except Unit JVal) (t : Transport) :
    String × OpticsDict × Option String :=
  match process_deviceBody info loads t with
  | .ok r => (name, r.1, r.2)
  | .error e => (name, [], some e.str)

/-! ## Aggregator (the result loop of `main`) -/

/-- Python truthiness of `error_message` (`None` or a string). -/
def errTruthy : Option String → Bool
  | none => false
  | some s => s != ""

/-- One iteration of `main`'s result loop: route by `if error_message:`. -/
def aggStep (acc : List (String × OpticsDict) × List (String × String))
    (r : String × OpticsDict × Option String) :
    List (String × OpticsDict) × List (String × String) :=
  if errTruthy r.2.2 then (acc.1, upsert r.1 (r.2.2.getD "") acc.2)
  else (upsert r.1 r.2.1 acc.1, acc.2)

/-- Fold every completed device result into
`(optics_data, failed_connections)`. -/
def aggregate (results : List (String × OpticsDict × Option String)) :
    List (String × OpticsDict) × List (String × String) :=
  results.foldl aggStep ([], [])

set_option maxRecDepth 8000

/-! ## Helper lemmas about the dict model -/

theorem mem_map_fst_upsert {α β : Type} [DecidableEq α] (k : α) (v : β)
    (d : List (α × β)) (x : α) :
    x ∈ (upsert k v d).map Prod.fst ↔ x = k ∨ x ∈ d.map Prod.fst := by
  induction d with
  | nil => simp [upsert]
  | cons p t ih =>
    by_cases h : p.1 = k
    · obtain ⟨pk, pv⟩ := p
      simp only at h
      subst h
      simp [upsert]
    · obtain ⟨pk, pv⟩ := p
      simp only at h
      simp only [upsert, if_neg h, List.map_cons, List.mem_cons, ih]
      constructor
      · rintro (rfl | rfl | hx)
        · right; left; rfl
        · left; rfl
        · right; right; exact hx
      · rintro (rfl | rfl | hx)
        · right; left; rfl
        · left; rfl
        · right; right; exact hx

theorem alookup_upsert_self {α β : Type} [DecidableEq α] (k : α) (v : β)
    (d : List (α × β)) : alookup k (upsert k v d) = some v := by
  induction d with
  | nil => simp [upsert, alookup]
  | cons p t ih =>
    by_cases h : p.1 = k
    · obtain ⟨pk, pv⟩ := p
      simp only at h
      subst h
      simp [upsert, alookup]
    · obtain ⟨pk, pv⟩ := p
      simp only at h
      simp [upsert, alookup, h, ih]

theorem alookup_upsert_ne {α β : Type} [DecidableEq α] (k x : α) (v : β)
    (d : List (α × β)) (h : x ≠ k) :
    alookup x (upsert k v d) = alookup x d := by
  induction d with
  | nil => simp [upsert, alookup, Ne.symm h]
  | cons p t ih =>
    obtain ⟨pk, pv⟩ := p
    by_cases hpk : pk = k
    · subst hpk
      simp [upsert, alookup, Ne.symm h]
    · simp [upsert, alookup, hpk, ih]

theorem map_fst_mergeStates (optics : OpticsDict) (st : List (PyKey × String)) :
    (mergeStates optics st).map Prod.fst = optics.map Prod.fst := by
  simp [mergeStates, List.map_map]

theorem alookup_mergeStates (optics : OpticsDict) (st : List (PyKey × String))
    (k : PyKey) :
    alookup k (mergeStates optics st) =
      (alookup k optics).map
        (fun r => { r with state := (alookup k st).getD "Unknown" }) := by
  induction optics with
  | nil => simp [mergeStates, alookup]
  | cons p t ih =>
    obtain ⟨pk, pv⟩ := p
    by_cases h : pk = k
    · subst h
      simp [mergeStates, alookup]
    · simpa [mergeStates, alookup, h] using ih

/-- `process_device` always reports the device name it was given. -/
theorem process_device_fst (name : String) (info : DevInfo)
    (loads : String → Except Unit JVal) (t : Transport) :
    (process_device name info loads t).1 = name := by
  unfold process_device
  cases process_deviceBody info loads t with
  | ok r => rfl
  | error e => rfl

/-! ## Helper lemmas about the aggregation loop -/

theorem aggStep_true (acc : List (String × OpticsDict) × List (String × String))
    (r : String × OpticsDict × Option String) (h : errTruthy r.2.2 = true) :
    aggStep acc r = (acc.1, upsert r.1 (r.2.2.getD "") acc.2) := by
  simp [aggStep, h]

theorem aggStep_false (acc : List (String × OpticsDict) × List (String × String))
    (r : String × OpticsDict × Option String) (h : errTruthy r.2.2 = false) :
    aggStep acc r = (upsert r.1 r.2.1 acc.1, acc.2) := by
  simp [aggStep, h]

theorem agg_foldl_succ_mem (rs : List (String × OpticsDict × Option String))
    (acc : List (String × OpticsDict) × List (String × String)) (n : String) :
    n ∈ (rs.foldl aggStep acc).1.map Prod.fst ↔
      n ∈ acc.1.map Prod.fst ∨
        ∃ r ∈ rs, r.1 = n ∧ errTruthy r.2.2 = false := by
  induction rs generalizing acc with
  | nil => simp
  | cons r rs ih =>
    cases hr : errTruthy r.2.2 with
    | false =>
      rw [List.foldl_cons, aggStep_false acc r hr, ih]
      simp only [mem_map_fst_upsert, List.mem_cons]
      constructor
      · rintro ((rfl | hx) | ⟨r', hr', h1, h2⟩)
        · exact Or.inr ⟨r, Or.inl rfl, rfl, hr⟩
        · exact Or.inl hx
        · exact Or.inr ⟨r', Or.inr hr', h1, h2⟩
      · rintro (hx | ⟨r', (rfl | hr'), h1, h2⟩)
        · exact Or.inl (Or.inr hx)
        · exact Or.inl (Or.inl h1.symm)
        · exact Or.inr ⟨r', hr', h1, h2⟩
    | true =>
      rw [List.foldl_cons, aggStep_true acc r hr, ih]
      simp only [List.mem_cons]
      constructor
      · rintro (hx | ⟨r', hr', h1, h2⟩)
        · exact Or.inl hx
        · exact Or.inr ⟨r', Or.inr hr', h1, h2⟩
      · rintro (hx | ⟨r', (rfl | hr'), h1, h2⟩)
        · exact Or.inl hx
        · rw [hr] at h2; cases h2
        · exact Or.inr ⟨r', hr', h1, h2⟩

theorem agg_foldl_fail_mem (rs : List (String × OpticsDict × Option String))
    (acc : List (String × OpticsDict) × List (String × String)) (n : String) :
    n ∈ (rs.foldl aggStep acc).2.map Prod.fst ↔
      n ∈ acc.2.map Prod.fst ∨
        ∃ r ∈ rs, r.1 = n ∧ errTruthy r.2.2 = true := by
  induction rs generalizing acc with
  | nil => simp
  | cons r rs ih =>
    cases hr : errTruthy r.2.2 with
    | true =>
      rw [List.foldl_cons, aggStep_true acc r hr, ih]
      simp only [mem_map_fst_upsert, List.mem_cons]
      constructor
      · rintro ((rfl | hx) | ⟨r', hr', h1, h2⟩)
        · exact Or.inr ⟨r, Or.inl rfl, rfl, hr⟩
        · exact Or.inl hx
        · exact Or.inr ⟨r', Or.inr hr', h1, h2⟩
      · rintro (hx | ⟨r', (rfl | hr'), h1, h2⟩)
        · exact Or.inl (Or.inr hx)
        · exact Or.inl (Or.inl h1.symm)
        · exact Or.inr ⟨r', hr', h1, h2⟩
    | false =>
      rw [List.foldl_cons, aggStep_false acc r hr, ih]
      simp only [List.mem_cons]
      constructor
      · rintro (hx | ⟨r', hr', h1, h2⟩)
        · exact Or.inl hx
        · exact Or.inr ⟨r', Or.inr hr', h1, h2⟩
      · rintro (hx | ⟨r', (rfl | hr'), h1, h2⟩)
        · exact Or.inl hx
        · rw [hr] at h2; cases h2
        · exact Or.inr ⟨r', hr', h1, h2⟩

/-! ## Claim C1 -/

/-- C1: for every roster (of any size, in any completion order of the
per-device results, which is any permutation of the submitted work), each
device name lands in exactly one of the two output mappings of the batch:
the union of the success-mapping and failure-mapping key sets equals the
roster's key set, and their intersection is empty. -/
theorem c1_batch_partition
    (roster : List (String × DevInfo)) (loads : String → Except Unit JVal)
    (tr : String → DevInfo → Transport)
    (results : List (String × OpticsDict × Option String))
    (hperm : results.Perm
      (roster.map (fun p => process_device p.1 p.2 loads (tr p.1 p.2))))
    (hnd : (roster.map Prod.fst).Nodup) (n : String) :
    ((n ∈ (aggregate results).1.map Prod.fst ∨
        n ∈ (aggregate results).2.map Prod.fst) ↔ n ∈ roster.map Prod.fst)
    ∧ ¬(n ∈ (aggregate results).1.map Prod.fst ∧
        n ∈ (aggregate results).2.map Prod.fst) := by
  have hmap : (roster.map
      (fun p => process_device p.1 p.2 loads (tr p.1 p.2))).map Prod.fst
      = roster.map Prod.fst := by
    rw [List.map_map]
    exact List.map_congr_left (fun p _ => process_device_fst p.1 p.2 loads (tr p.1 p.2))
  have hpermfst : (results.map Prod.fst).Perm (roster.map Prod.fst) := by
    have h := hperm.map Prod.fst
    rwa [hmap] at h
  have hs := agg_foldl_succ_mem results ([], []) n
  have hf := agg_foldl_fail_mem results ([], []) n
  simp only [List.map_nil, List.not_mem_nil, false_or] at hs hf
  constructor
  · rw [show aggregate results = results.foldl aggStep ([], []) from rfl, hs, hf]
    constructor
    · rintro (⟨r, hr, h1, _⟩ | ⟨r, hr, h1, _⟩) <;>
        exact hpermfst.mem_iff.mp (h1 ▸ List.mem_map_of_mem Prod.fst hr)
    · intro hn
      obtain ⟨r, hr, h1⟩ := List.mem_map.mp (hpermfst.mem_iff.mpr hn)
      cases he : errTruthy r.2.2 with
      | false => exact Or.inl ⟨r, hr, h1, he⟩
      | true => exact Or.inr ⟨r, hr, h1, he⟩
  · rw [show aggregate results = results.foldl aggStep ([], []) from rfl, hs, hf]
    rintro ⟨⟨r1, hr1, hf1, he1⟩, ⟨r2, hr2, hf2, he2⟩⟩
    have hnodup : (results.map Prod.fst).Nodup := hpermfst.nodup_iff.mpr hnd
    have : r1 = r2 :=
      List.inj_on_of_nodup_map hnodup hr1 hr2 (by rw [hf1, hf2])
    rw [this, he2] at he1
    cases he1

/-- Witness for C1 at a concrete two-device roster: one IOS-XR device that
succeeds (empty inventory) and one device with an unsupported platform tag
that fails; the name `"r1"` lands in the success mapping only. -/
theorem c1_batch_partition_witness :
    (("r1" ∈ (aggregate
        ([("r1", DevInfo.mk (some "cisco_xr")), ("r2", DevInfo.mk none)].map
          (fun p => process_device p.1 p.2 (fun _ => .error ())
            (Transport.mk (.ok ()) (fun _ => .ok "") (.ok ()))))).1.map Prod.fst ∨
      "r1" ∈ (aggregate
        ([("r1", DevInfo.mk (some "cisco_xr")), ("r2", DevInfo.mk none)].map
          (fun p => process_device p.1 p.2 (fun _ => .error ())
            (Transport.mk (.ok ()) (fun _ => .ok "") (.ok ()))))).2.map Prod.fst) ↔
      "r1" ∈ ([("r1", DevInfo.mk (some "cisco_xr")), ("r2", DevInfo.mk none)].map Prod.fst))
    ∧ ¬("r1" ∈ (aggregate
        ([("r1", DevInfo.mk (some "cisco_xr")), ("r2", DevInfo.mk none)].map
          (fun p => process_device p.1 p.2 (fun _ => .error ())
            (Transport.mk (.ok ()) (fun _ => .ok "") (.ok ()))))).1.map Prod.fst ∧
      "r1" ∈ (aggregate
        ([("r1", DevInfo.mk (some "cisco_xr")), ("r2", DevInfo.mk none)].map
          (fun p => process_device p.1 p.2 (fun _ => .error ())
            (Transport.mk (.ok ()) (fun _ => .ok "") (.ok ()))))).2.map Prod.fst) :=
  c1_batch_partition
    [("r1", DevInfo.mk (some "cisco_xr")), ("r2", DevInfo.mk none)]
    (fun _ => .error ())
    (fun _ _ => Transport.mk (.ok ()) (fun _ => .ok "") (.ok ()))
    ([("r1", DevInfo.mk (some "cisco_xr")), ("r2", DevInfo.mk none)].map
      (fun p => process_device p.1 p.2 (fun _ => .error ())
        (Transport.mk (.ok ()) (fun _ => .ok "") (.ok ()))))
    (List.Perm.refl _) (by decide) "r1"

/-! ## Claim C10 -/

/-- C10: if a device's acquisition sequence raises an exception whose
`str(e)` is the empty string, the device is routed into the success mapping
with an empty record set, because `main` routes on the truthiness of the
error-description string and `""` is falsy. -/
theorem c10_empty_error_message_success (name : String) (info : DevInfo)
    (loads : String → Except Unit JVal) (t : Transport) (e : PyExc)
    (hraise : process_deviceBody info loads t = .error e)
    (hmsg : e.str = "") :
    process_device name info loads t = (name, [], some "")
    ∧ aggregate [process_device name info loads t] = ([(name, [])], []) := by
  have h1 : process_device name info loads t = (name, [], some "") := by
    unfold process_device
    rw [hraise]
    simp [hmsg]
  refine ⟨h1, ?_⟩
  rw [h1]
  rfl

/-- Witness for C10: a device whose connect raises an exception rendering
as `""` lands in the success mapping with no records. -/
theorem c10_empty_error_message_success_witness :
    process_deviceBody (DevInfo.mk (some "cisco_xr")) (fun _ => .error ())
        (Transport.mk (.error (.exc "")) (fun _ => .ok "") (.ok ())) = .error (.exc "")
    ∧ (PyExc.exc "").str = ""
    ∧ process_device "r1" (DevInfo.mk (some "cisco_xr")) (fun _ => .error ())
        (Transport.mk (.error (.exc "")) (fun _ => .ok "") (.ok ())) = ("r1", [], some "")
    ∧ aggregate [process_device "r1" (DevInfo.mk (some "cisco_xr")) (fun _ => .error ())
        (Transport.mk (.error (.exc "")) (fun _ => .ok "") (.ok ()))] = ([("r1", [])], []) :=
  ⟨rfl, rfl,
    (c10_empty_error_message_success "r1" (DevInfo.mk (some "cisco_xr"))
      (fun _ => .error ())
      (Transport.mk (.error (.exc "")) (fun _ => .ok "") (.ok ()))
      (.exc "") rfl rfl).1,
    (c10_empty_error_message_success "r1" (DevInfo.mk (some "cisco_xr"))
      (fun _ => .error ())
      (Transport.mk (.error (.exc "")) (fun _ => .ok "") (.ok ()))
      (.exc "") rfl rfl).2⟩

/-! ## Claim C8 -/

/-- Counterexample to C8 as stated: a device with the unsupported platform
tag `"juniper"` whose session fails to open produces a `Failure` carrying
the connection error `"timeout"`, which does not mention an unsupported
platform — the source connects *before* it checks the platform tag. -/
theorem c8_counterexample :
    process_device "r1" (DevInfo.mk (some "juniper")) (fun _ => .error ())
        (Transport.mk (.error (.exc "timeout")) (fun _ => .ok "") (.ok ()))
      = ("r1", [], some "timeout")
    ∧ strContains "timeout" "Unsupported platform" = false :=
  ⟨rfl, rfl⟩

/-- C8 (amended): for every device whose platform tag is outside
`{cisco_xr, cisco_xe, cisco_nxos}` and whose session opens successfully,
the driver fails with the `"Unsupported platform: ..."` error, reports no
records, lands in the failure mapping — and the result does not depend on
the transport's send (or disconnect) operation at all, so send is never
consulted. -/
theorem c8_unsupported_platform (name : String) (dt : Option String)
    (loads : String → Except Unit JVal)
    (h1 : dt ≠ some "cisco_xr") (h2 : dt ≠ some "cisco_xe")
    (h3 : dt ≠ some "cisco_nxos") :
    ∀ send disc,
      process_device name (DevInfo.mk dt) loads (Transport.mk (.ok ()) send disc)
        = (name, [], some ("Unsupported platform: " ++ pyOptStr dt))
      ∧ aggregate [process_device name (DevInfo.mk dt) loads
          (Transport.mk (.ok ()) send disc)]
        = ([], [(name, "Unsupported platform: " ++ pyOptStr dt)]) := by
  intro send disc
  have hcmd : platformCommand dt = none := by
    simp [platformCommand, h1, h2, h3]
  have hbody : process_deviceBody (DevInfo.mk dt) loads (Transport.mk (.ok ()) send disc)
      = .ok ([], some ("Unsupported platform: " ++ pyOptStr dt)) := by
    simp [process_deviceBody, hcmd]
  have hp : process_device name (DevInfo.mk dt) loads (Transport.mk (.ok ()) send disc)
      = (name, [], some ("Unsupported platform: " ++ pyOptStr dt)) := by
    unfold process_device
    rw [hbody]
  have hne : ("Unsupported platform: " ++ pyOptStr dt) ≠ "" := by
    intro h
    have hl := congrArg String.length h
    rw [String.length_append] at hl
    have h22 : ("Unsupported platform: " : String).length = 22 := by decide
    have h0 : ("" : String).length = 0 := by decide
    rw [h22, h0] at hl
    omega
  refine ⟨hp, ?_⟩
  rw [hp]
  show List.foldl aggStep ([], [])
      [(name, ([] : OpticsDict), some ("Unsupported platform: " ++ pyOptStr dt))] = _
  rw [List.foldl_cons, aggStep_true _ _ (by simp [errTruthy, hne])]
  rfl

/-- Witness for C8 (amended) at platform tag `"juniper"`. -/
theorem c8_unsupported_platform_witness :
    process_device "r9" (DevInfo.mk (some "juniper")) (fun _ => .error ())
        (Transport.mk (.ok ()) (fun _ => .ok "anything") (.ok ()))
      = ("r9", [], some ("Unsupported platform: " ++ pyOptStr (some "juniper")))
    ∧ aggregate [process_device "r9" (DevInfo.mk (some "juniper")) (fun _ => .error ())
        (Transport.mk (.ok ()) (fun _ => .ok "anything") (.ok ()))]
      = ([], [("r9", "Unsupported platform: " ++ pyOptStr (some "juniper"))]) :=
  c8_unsupported_platform "r9" (some "juniper") (fun _ => .error ())
    (by decide) (by decide) (by decide) (fun _ => .ok "anything") (.ok ())

/-! ## Claim C9 -/

/-- Counterexample to C9 as stated: inventory and status work complete
(empty inventory), then `connection.disconnect()` raises; the outer
`except` turns the device's success into a `Failure` with the disconnect
error — the disconnect is *not* best-effort, and the device lands in the
failure mapping. -/
theorem c9_counterexample :
    process_device "r1" (DevInfo.mk (some "cisco_xr")) (fun _ => .error ())
        (Transport.mk (.ok ()) (fun _ => .ok "")
          (.error (.exc "ssh teardown failed")))
      = ("r1", [], some "ssh teardown failed")
    ∧ aggregate [process_device "r1" (DevInfo.mk (some "cisco_xr"))
        (fun _ => .error ())
        (Transport.mk (.ok ()) (fun _ => .ok "")
          (.error (.exc "ssh teardown failed")))]
      = ([], [("r1", "ssh teardown failed")]) :=
  ⟨rfl, rfl⟩

/-- C9 (amended): a failure raised by the disconnect operation *is* caught
by the device-level handler and flips the device's outcome to a `Failure`
carrying the disconnect error (when its message is truthy); the device then
appears in the failure mapping and its collected records are discarded. -/
theorem c9_disconnect_failure_flips (name : String) (info : DevInfo)
    (loads : String → Except Unit JVal) (t : Transport) (cmd : String)
    (hcmd : platformCommand info.device_type = some cmd)
    (hconn : t.connect = .ok ())
    (outs : String → String) (hsend : ∀ c, t.send c = .ok (outs c))
    (optics : OpticsDict)
    (hparse : parse_inventory_output (outs cmd) loads info.device_type = .ok optics)
    (e : PyExc) (hdisc : t.disconnect = .error e) (hne : e.str ≠ "") :
    process_device name info loads t = (name, [], some e.str)
    ∧ aggregate [process_device name info loads t] = ([], [(name, e.str)]) := by
  have hbody : process_deviceBody info loads t = .error e := by
    simp [process_deviceBody, hconn, hcmd, hsend cmd, hparse, hdisc]
  have hp : process_device name info loads t = (name, [], some e.str) := by
    unfold process_device
    rw [hbody]
  refine ⟨hp, ?_⟩
  rw [hp]
  show List.foldl aggStep ([], []) [(name, ([] : OpticsDict), some e.str)] = _
  rw [List.foldl_cons, aggStep_true _ _ (by simp [errTruthy, hne])]
  rfl

/-- Witness for C9 (amended): an IOS-XR device with empty inventory output
whose disconnect raises `"ssh teardown failed"` lands in the failure
mapping. -/
theorem c9_disconnect_failure_flips_witness :
    process_device "rtr" (DevInfo.mk (some "cisco_xr")) (fun _ => .error ())
        (Transport.mk (.ok ()) (fun _ => .ok "")
          (.error (.exc "ssh teardown failed")))
      = ("rtr", [], some (PyExc.exc "ssh teardown failed").str)
    ∧ aggregate [process_device "rtr" (DevInfo.mk (some "cisco_xr"))
        (fun _ => .error ())
        (Transport.mk (.ok ()) (fun _ => .ok "")
          (.error (.exc "ssh teardown failed")))]
      = ([], [("rtr", (PyExc.exc "ssh teardown failed").str)]) :=
  c9_disconnect_failure_flips "rtr" (DevInfo.mk (some "cisco_xr"))
    (fun _ => .error ())
    (Transport.mk (.ok ()) (fun _ => .ok "") (.error (.exc "ssh teardown failed")))
    "show inventory" rfl rfl (fun _ => "") (fun _ => rfl) [] rfl
    (.exc "ssh teardown failed") rfl (by decide)

/-! ## Claim C2 -/

/-- Counterexample to C2 as stated: the string `"[]"` is not interpretable
as the expected structured inventory (it decodes to a JSON array, not the
expected object), yet the parser raises an `AttributeError` past the
component (`'list' object has no attribute 'get'` — only
`json.JSONDecodeError` is handled), and the device outcome becomes a
`Failure`, not a success. -/
theorem c2_counterexample :
    parse_inventory_nxos (.ok (.arr [])) = .error (.attributeError "list" "get")
    ∧ process_device "n9k" (DevInfo.mk (some "cisco_nxos"))
        (fun s => if s = "[]" then .ok (.arr []) else .error ())
        (Transport.mk (.ok ())
          (fun c => if c = "show inventory all | json" then .ok "[]" else .ok "")
          (.ok ()))
      = ("n9k", [], some "\x27list\x27 object has no attribute \x27get\x27")
    ∧ aggregate [process_device "n9k" (DevInfo.mk (some "cisco_nxos"))
        (fun s => if s = "[]" then .ok (.arr []) else .error ())
        (Transport.mk (.ok ())
          (fun c => if c = "show inventory all | json" then .ok "[]" else .ok "")
          (.ok ()))]
      = ([], [("n9k", "\x27list\x27 object has no attribute \x27get\x27")]) :=
  ⟨rfl, rfl, rfl⟩

/-- C2 (amended): every input string rejected by the JSON decoder itself
(`json.JSONDecodeError`) yields an empty record set, raises nothing past
the parser, and leaves the device outcome a success. -/
theorem c2_decode_failure_absorbed (output name : String)
    (loads : String → Except Unit JVal) (t : Transport)
    (hload : loads output = .error ())
    (hconn : t.connect = .ok ())
    (hsend : t.send "show inventory all | json" = .ok output)
    (hdisc : t.disconnect = .ok ()) :
    parse_inventory_output output loads (some "cisco_nxos") = .ok []
    ∧ process_device name (DevInfo.mk (some "cisco_nxos")) loads t
        = (name, [], none)
    ∧ aggregate [process_device name (DevInfo.mk (some "cisco_nxos")) loads t]
        = ([(name, [])], []) := by
  have hparse : parse_inventory_output output loads (some "cisco_nxos") = .ok [] := by
    simp [parse_inventory_output, hload, parse_inventory_nxos]
  have hbody : process_deviceBody (DevInfo.mk (some "cisco_nxos")) loads t
      = .ok ([], none) := by
    simp [process_deviceBody, hconn, platformCommand, hsend, hparse, hdisc]
  have hp : process_device name (DevInfo.mk (some "cisco_nxos")) loads t
      = (name, [], none) := by
    unfold process_device
    rw [hbody]
  exact ⟨hparse, hp, by rw [hp]; rfl⟩

/-- Witness for C2 (amended): malformed (undecodable) NX-OS output yields
an empty, successful result. -/
theorem c2_decode_failure_absorbed_witness :
    parse_inventory_output "%garbled%" (fun _ => .error ()) (some "cisco_nxos") = .ok []
    ∧ process_device "n9k" (DevInfo.mk (some "cisco_nxos")) (fun _ => .error ())
        (Transport.mk (.ok ()) (fun _ => .ok "%garbled%") (.ok ()))
        = ("n9k", [], none)
    ∧ aggregate [process_device "n9k" (DevInfo.mk (some "cisco_nxos"))
        (fun _ => .error ())
        (Transport.mk (.ok ()) (fun _ => .ok "%garbled%") (.ok ()))]
        = ([("n9k", [])], []) :=
  c2_decode_failure_absorbed "%garbled%" "n9k" (fun _ => .error ())
    (Transport.mk (.ok ()) (fun _ => .ok "%garbled%") (.ok ()))
    rfl rfl rfl rfl

/-! ## Claim C5 -/

/-- C5: evaluating the IOS-XR/XE status parser at a canonical
administratively-down output. The line contains
`"line protocol is administratively down"`, yet the code produces
`"DOWN/DOWN"`, not the claimed `"ADMIN_DOWN/DOWN"`: the
`"administratively down"` check is nested under `if "up" in line_lower`,
and this line contains no `"up"` substring, so the `ADMIN_DOWN` branch
cannot fire. The same value flows into the interface's status entry. -/
theorem c5_admin_down_eval :
    xrParseStatus "TenGigE0/0/0/1 is administratively down, line protocol is administratively down"
      = "DOWN/DOWN"
    ∧ strContains
        (lowerStr "TenGigE0/0/0/1 is administratively down, line protocol is administratively down")
        "line protocol is administratively down" = true
    ∧ strContains
        (lowerStr "TenGigE0/0/0/1 is administratively down, line protocol is administratively down")
        "up" = false
    ∧ get_interface_status
        (fun _ => .ok "TenGigE0/0/0/1 is administratively down, line protocol is administratively down")
        (some "cisco_xr") [.str "TenGigE0/0/0/1"]
      = [(.str "TenGigE0/0/0/1", "DOWN/DOWN")] :=
  ⟨rfl, rfl, rfl, rfl⟩

/-! ## Claim C6 -/

/-- Modelled from claim C6's words: scan the status text's lines for a line
containing the interface identifier together with `"is up"`/`"is down"`,
apply the sub-rules on the first such line, default `DOWN` when no line
matches. -/
def nxosStatusClaimSpec (intf : String) (output : String) : String :=
  match (splitLines output).find? (fun l =>
      strContains (lowerStr l) (lowerStr intf) &&
        (strContains (lowerStr l) "is up" || strContains (lowerStr l) "is down")) with
  | none => "DOWN"
  | some line => nxosLineStatus (lowerStr line)

/-- Counterexample to C6 as stated: for interface `Gi1` and status output
`"Clock is up to date"` — a line that does not contain the interface
identifier anywhere — the claimed scan finds no matching line and defaults
to `DOWN`, but the code's guard (`"is"` plus `"up"`/`"down"`, the interface
identifier is never consulted) accepts the line and yields `UP`. -/
theorem c6_counterexample :
    nxosParseStatus "Clock is up to date" = "UP"
    ∧ nxosStatusClaimSpec "Gi1" "Clock is up to date" = "DOWN"
    ∧ strContains "Clock is up to date" "Gi1" = false
    ∧ strContains (lowerStr "Clock is up to date") (lowerStr "Gi1") = false
    ∧ get_interface_status
        (fun c => if c = "show interface Gi1" then .ok "Clock is up to date" else .ok "")
        (some "cisco_nxos") [.str "Gi1"]
      = [(.str "Gi1", "UP")] :=
  ⟨rfl, rfl, rfl, rfl, rfl⟩

/-- Modelled from the amended claim C6: scan lines in order for the first
containing `"is"` together with `"up"` or `"down"` (the interface
identifier is not consulted); on that line apply, in priority order:
administratively down → `ADMIN_DOWN`; "is up" plus "connected" → `UP`;
"is up" plus "notconnect" → `DOWN`; "is up" alone → `UP`; "is down" →
`DOWN`; otherwise the default; stop at that line; default `DOWN` when no
line matches. -/
def nxosScanAmended : List String → String
  | [] => "DOWN"
  | l :: ls =>
    if strContains (lowerStr l) "is" &&
        (strContains (lowerStr l) "up" || strContains (lowerStr l) "down") then
      if strContains (lowerStr l) "administratively down" then "ADMIN_DOWN"
      else if strContains (lowerStr l) "is up" && strContains (lowerStr l) "connected" then "UP"
      else if strContains (lowerStr l) "is up" && strContains (lowerStr l) "notconnect" then "DOWN"
      else if strContains (lowerStr l) "is up" then "UP"
      else if strContains (lowerStr l) "is down" then "DOWN"
      else "DOWN"
    else nxosScanAmended ls

/-- The nested keyword chain of the source equals the amended claim's flat
priority list on any (lowered) line. -/
theorem nxosLineStatus_flat (ll : String) :
    nxosLineStatus ll =
      (if strContains ll "administratively down" then "ADMIN_DOWN"
       else if strContains ll "is up" && strContains ll "connected" then "UP"
       else if strContains ll "is up" && strContains ll "notconnect" then "DOWN"
       else if strContains ll "is up" then "UP"
       else if strContains ll "is down" then "DOWN"
       else "DOWN") := by
  cases h1 : strContains ll "administratively down" <;>
    cases h2 : strContains ll "is up" <;>
      cases h3 : strContains ll "connected" <;>
        cases h4 : strContains ll "notconnect" <;>
          cases h5 : strContains ll "is down" <;>
            simp [nxosLineStatus, h1, h2, h3, h4, h5]

/-- C6 (amended): the NX-OS status scan takes the first line containing
`"is"` together with `"up"` or `"down"` — the interface identifier is not
consulted — applies the priority sub-rules there, and defaults to `DOWN`;
and, concretely, a full NX-OS device run whose `show interface Gi1` output
contains `"Gi1 is up (connected)"` merges operational state `"UP"` into
the `Gi1` record. -/
theorem c6_nxos_scan (output : String) :
    nxosParseStatus output = nxosScanAmended (splitLines output)
    ∧ process_device "sw1" (DevInfo.mk (some "cisco_nxos"))
        (fun s => if s = "NXJSON" then
            .ok (.obj [("TABLE_inv", .obj [("ROW_inv", .arr
              [.obj [("name", .str "Gi1"), ("desc", .str "1G optic"),
                ("productid", .str "GLC-SX")]])])])
          else .error ())
        (Transport.mk (.ok ())
          (fun c => if c = "show inventory all | json" then .ok "NXJSON"
            else if c = "show interface Gi1" then .ok "Gi1 is up (connected)"
            else .ok "")
          (.ok ()))
      = ("sw1",
          [(.str "Gi1",
            { descr := .str "1G optic", pid := .str "GLC-SX",
              vid := .str "N/A", sn := .str "N/A", state := "UP" })],
          none) := by
  constructor
  · show (match (splitLines output).find? nxosGuard with
        | none => "DOWN"
        | some line => nxosLineStatus (lowerStr line)) = nxosScanAmended (splitLines output)
    induction splitLines output with
    | nil => rfl
    | cons l ls ih =>
      cases hg : nxosGuard l with
      | true =>
        rw [List.find?_cons_of_pos _ hg]
        have hg' : (strContains (lowerStr l) "is" &&
            (strContains (lowerStr l) "up" || strContains (lowerStr l) "down")) = true := hg
        show nxosLineStatus (lowerStr l) = nxosScanAmended (l :: ls)
        rw [nxosScanAmended, if_pos hg', nxosLineStatus_flat]
      | false =>
        rw [List.find?_cons_of_neg _ (by rw [hg]; simp)]
        have hg' : ¬((strContains (lowerStr l) "is" &&
            (strContains (lowerStr l) "up" || strContains (lowerStr l) "down")) = true) := by
          rw [show (strContains (lowerStr l) "is" &&
            (strContains (lowerStr l) "up" || strContains (lowerStr l) "down")) = nxosGuard l from rfl, hg]
          simp
        rw [nxosScanAmended, if_neg hg']
        exact ih
  · rfl

/-! ## Claim C7 -/

/-- The status value one `get_interface_status` iteration stores for
interface `k` on a supported platform: the parsed output on success,
`"ERROR"` when the send raises. -/
def statusCmdResult (send : String → Except PyExc String)
    (platform : Option String) (k : PyKey) : String :=
  match send ("show interface " ++ pyKeyStr k) with
  | .ok output =>
      if platform = some "cisco_nxos" then nxosParseStatus output
      else xrParseStatus output
  | .error _ => "ERROR"

theorem gisStep_supported (send : String → Except PyExc String)
    (p : Option String)
    (hp : p = some "cisco_xr" ∨ p = some "cisco_xe" ∨ p = some "cisco_nxos")
    (acc : List (PyKey × String)) (k : PyKey) :
    gisStep send p acc k = upsert k (statusCmdResult send p k) acc := by
  rcases hp with hp | hp | hp <;> subst hp <;>
    cases hs : send ("show interface " ++ pyKeyStr k) <;>
      simp [gisStep, statusCmdResult, hs]

theorem gis_foldl_lookup (send : String → Except PyExc String)
    (p : Option String)
    (hp : p = some "cisco_xr" ∨ p = some "cisco_xe" ∨ p = some "cisco_nxos")
    (names : List PyKey) (acc : List (PyKey × String)) (k : PyKey) :
    alookup k (names.foldl (gisStep send p) acc) =
      if k ∈ names then some (statusCmdResult send p k) else alookup k acc := by
  induction names generalizing acc with
  | nil => simp
  | cons j names ih =>
    rw [List.foldl_cons, gisStep_supported send p hp acc j, ih]
    by_cases hkj : k = j
    · subst hkj
      by_cases hkn : k ∈ names
      · simp [hkn]
      · simp [hkn, alookup_upsert_self]
    · by_cases hkn : k ∈ names
      · simp [hkn, List.mem_cons, hkj]
      · simp [List.mem_cons, hkj, hkn, alookup_upsert_ne j k _ _ hkj]

/-- C7: on a supported platform, when the transport raises while fetching
status for one interface `b` of a device whose inventory parsed to a
non-empty record set, only `b`'s status entry is `"ERROR"`; every other
interface whose status send succeeds gets its parsed state; and the device
outcome is still a success (`error_message = None`) whose record set keeps
every discovered port, with `b`'s record merged to state `"ERROR"`. -/
theorem c7_status_error_isolated
    (p : Option String)
    (hp : p = some "cisco_xr" ∨ p = some "cisco_xe" ∨ p = some "cisco_nxos")
    (name : String) (loads : String → Except Unit JVal) (t : Transport)
    (cmd : String) (hcmd : platformCommand p = some cmd)
    (hconn : t.connect = .ok ())
    (invOut : String) (hinv : t.send cmd = .ok invOut)
    (optics : OpticsDict)
    (hparse : parse_inventory_output invOut loads p = .ok optics)
    (hne : optics ≠ [])
    (b : PyKey) (hb : b ∈ optics.map Prod.fst)
    (e : PyExc) (hbe : t.send ("show interface " ++ pyKeyStr b) = .error e)
    (hdisc : t.disconnect = .ok ()) :
    alookup b (get_interface_status t.send p (optics.map Prod.fst)) = some "ERROR"
    ∧ (∀ k ∈ optics.map Prod.fst, ∀ out,
        t.send ("show interface " ++ pyKeyStr k) = .ok out →
          alookup k (get_interface_status t.send p (optics.map Prod.fst)) =
            some (if p = some "cisco_nxos" then nxosParseStatus out
              else xrParseStatus out))
    ∧ process_device name (DevInfo.mk p) loads t
        = (name,
            mergeStates optics (get_interface_status t.send p (optics.map Prod.fst)),
            none)
    ∧ (mergeStates optics
        (get_interface_status t.send p (optics.map Prod.fst))).map Prod.fst
        = optics.map Prod.fst
    ∧ (∀ rec, alookup b optics = some rec →
        alookup b (mergeStates optics
          (get_interface_status t.send p (optics.map Prod.fst)))
          = some { rec with state := "ERROR" }) := by
  have hlook := gis_foldl_lookup t.send p hp (optics.map Prod.fst) []
  have h1 : alookup b (get_interface_status t.send p (optics.map Prod.fst))
      = some "ERROR" := by
    rw [show get_interface_status t.send p (optics.map Prod.fst)
        = (optics.map Prod.fst).foldl (gisStep t.send p) [] from rfl,
      hlook b, if_pos hb, statusCmdResult, hbe]
  refine ⟨h1, ?_, ?_, map_fst_mergeStates optics _, ?_⟩
  · intro k hk out hout
    rw [show get_interface_status t.send p (optics.map Prod.fst)
        = (optics.map Prod.fst).foldl (gisStep t.send p) [] from rfl,
      hlook k, if_pos hk, statusCmdResult, hout]
  · have hisEmpty : optics.isEmpty = false := by
      cases optics with
      | nil => exact absurd rfl hne
      | cons a l => rfl
    have hbody : process_deviceBody (DevInfo.mk p) loads t
        = .ok (mergeStates optics
            (get_interface_status t.send p (optics.map Prod.fst)), none) := by
      simp [process_deviceBody, hconn, hcmd, hinv, hparse, hdisc, hisEmpty]
    unfold process_device
    rw [hbody]
  · intro rec hrec
    rw [alookup_mergeStates, hrec]
    simp [h1]

/-- Witness for C7: an IOS-XR device with two discovered optics; the status
send for the first raises, the second parses to `UP/UP`; the outcome is a
success containing both records. -/
theorem c7_status_error_isolated_witness :
    alookup (.str "TenGigE0/0/0/1")
      (get_interface_status
        (fun c => if c = "show inventory" then
            .ok "NAME: \"TenGigE0/0/0/1\", DESCR: \"10G\"\nPID: SFP-A, VID: V01, SN: S1\nNAME: \"TenGigE0/0/0/2\", DESCR: \"10G\"\nPID: SFP-B, VID: V02, SN: S2\n"
          else if c = "show interface TenGigE0/0/0/1" then .error (.exc "read timeout")
          else if c = "show interface TenGigE0/0/0/2" then
            .ok "TenGigE0/0/0/2 is up, line protocol is up"
          else .ok "")
        (some "cisco_xr")
        ([(PyKey.str "TenGigE0/0/0/1",
            ({ descr := .str "10G", pid := .str "SFP-A", vid := .str "V01",
               sn := .str "S1", state := "Unknown" } : PortRec)),
          (PyKey.str "TenGigE0/0/0/2",
            ({ descr := .str "10G", pid := .str "SFP-B", vid := .str "V02",
               sn := .str "S2", state := "Unknown" } : PortRec))].map Prod.fst))
      = some "ERROR"
    ∧ (process_device "rtr" (DevInfo.mk (some "cisco_xr")) (fun _ => .error ())
        (Transport.mk (.ok ())
          (fun c => if c = "show inventory" then
              .ok "NAME: \"TenGigE0/0/0/1\", DESCR: \"10G\"\nPID: SFP-A, VID: V01, SN: S1\nNAME: \"TenGigE0/0/0/2\", DESCR: \"10G\"\nPID: SFP-B, VID: V02, SN: S2\n"
            else if c = "show interface TenGigE0/0/0/1" then .error (.exc "read timeout")
            else if c = "show interface TenGigE0/0/0/2" then
              .ok "TenGigE0/0/0/2 is up, line protocol is up"
            else .ok "")
          (.ok ()))).2.2 = none := by
  have h := c7_status_error_isolated (some "cisco_xr") (Or.inl rfl) "rtr"
    (fun _ => .error ())
    (Transport.mk (.ok ())
      (fun c => if c = "show inventory" then
          .ok "NAME: \"TenGigE0/0/0/1\", DESCR: \"10G\"\nPID: SFP-A, VID: V01, SN: S1\nNAME: \"TenGigE0/0/0/2\", DESCR: \"10G\"\nPID: SFP-B, VID: V02, SN: S2\n"
        else if c = "show interface TenGigE0/0/0/1" then .error (.exc "read timeout")
        else if c = "show interface TenGigE0/0/0/2" then
          .ok "TenGigE0/0/0/2 is up, line protocol is up"
        else .ok "")
      (.ok ()))
    "show inventory" rfl rfl
    "NAME: \"TenGigE0/0/0/1\", DESCR: \"10G\"\nPID: SFP-A, VID: V01, SN: S1\nNAME: \"TenGigE0/0/0/2\", DESCR: \"10G\"\nPID: SFP-B, VID: V02, SN: S2\n"
    rfl
    [(PyKey.str "TenGigE0/0/0/1",
        ({ descr := .str "10G", pid := .str "SFP-A", vid := .str "V01",
           sn := .str "S1", state := "Unknown" } : PortRec)),
      (PyKey.str "TenGigE0/0/0/2",
        ({ descr := .str "10G", pid := .str "SFP-B", vid := .str "V02",
           sn := .str "S2", state := "Unknown" } : PortRec))]
    rfl (List.cons_ne_nil _ _) (.str "TenGigE0/0/0/1") (by decide)
    (.exc "read timeout") rfl rfl
  exact ⟨h.1, by rw [h.2.2.1]⟩

/-! ## Claim C3 -/

/-- The expected NX-OS inventory shape around a row list:
`{"TABLE_inv": {"ROW_inv": [...]}}`. -/
def mkInv (rows : List JVal) : JVal :=
  .obj [("TABLE_inv", .obj [("ROW_inv", .arr rows)])]

/-- Pure view of `item.get(k, d)` on a row (rows are objects here). -/
def jget (r : JVal) (k : String) (d : JVal) : JVal :=
  match r with
  | .obj kvs => (jlookup kvs k).getD d
  | _ => d

/-- Does a row carry the key at all? -/
def jhasKey (r : JVal) (k : String) : Bool :=
  match r with
  | .obj kvs => (jlookup kvs k).isSome
  | _ => false

/-- The row-keeping test `if name and descr and pid:` with the source's
defaults (`None` for name/desc, `"N/A"` for productid). -/
def rowKept (r : JVal) : Bool :=
  truthy (jget r "name" .null) && truthy (jget r "desc" .null) &&
    truthy (jget r "productid" (.str "N/A"))

/-- The record extracted from a kept row. -/
def rowRec (r : JVal) : PortRec :=
  { descr := jget r "desc" .null, pid := jget r "productid" (.str "N/A"),
    vid := jget r "vid" (.str "N/A"), sn := jget r "serialnum" (.str "N/A"),
    state := "Unknown" }

/-- Pure characterization of the NX-OS row loop: fold the kept rows,
keying each record by its name. -/
def nxosRowsFold (rows : List JVal) : OpticsDict :=
  rows.foldl (fun a r =>
    if rowKept r then upsert (toKey (jget r "name" .null)) (rowRec r) a else a) []

theorem toKeyE_hashable (v : JVal) (h : v.hashable = true) :
    toKeyE v = .ok (toKey v) := by
  cases v <;> first
    | rfl
    | exact absurd h (by simp [JVal.hashable])

theorem rowStep_obj (acc : OpticsDict) (kvs : List (String × JVal))
    (hhash : rowKept (.obj kvs) = true →
      (jget (.obj kvs) "name" .null).hashable = true) :
    rowStep acc (.obj kvs) = .ok (if rowKept (.obj kvs)
      then upsert (toKey (jget (.obj kvs) "name" .null)) (rowRec (.obj kvs)) acc
      else acc) := by
  simp only [rowStep, pyGetD]
  have hcond : (truthy ((jlookup kvs "name").getD .null) &&
      truthy ((jlookup kvs "desc").getD .null) &&
      truthy ((jlookup kvs "productid").getD (.str "N/A"))) = rowKept (.obj kvs) := rfl
  rw [hcond]
  cases hk : rowKept (.obj kvs) with
  | true =>
    rw [toKeyE_hashable ((jlookup kvs "name").getD JVal.null) (hhash hk)]
    rfl
  | false => rfl

theorem foldRows_ok : ∀ (rows : List JVal) (acc : OpticsDict),
    (∀ r ∈ rows, r.isObj = true) →
    (∀ r ∈ rows, rowKept r = true → (jget r "name" .null).hashable = true) →
    foldRows rows acc = .ok (rows.foldl (fun a r =>
      if rowKept r then upsert (toKey (jget r "name" .null)) (rowRec r) a else a) acc)
  | [], _, _, _ => rfl
  | r :: rows, acc, hobj, hhash => by
    have hr : r.isObj = true := hobj r (by simp)
    cases r with
    | obj kvs =>
      rw [List.foldl_cons]
      show (match rowStep acc (.obj kvs) with
        | .error e => Except.error e
        | .ok acc2 => foldRows rows acc2) = _
      rw [rowStep_obj acc kvs (hhash _ (by simp))]
      exact foldRows_ok rows _ (fun x hx => hobj x (by simp [hx]))
        (fun x hx => hhash x (by simp [hx]))
    | null => simp [JVal.isObj] at hr
    | bool b => simp [JVal.isObj] at hr
    | num n => simp [JVal.isObj] at hr
    | str s => simp [JVal.isObj] at hr
    | arr xs => simp [JVal.isObj] at hr

/-- Counterexample to C3 as stated: a row with a name and a description but
*no* product ID is **kept** (its PID defaults to `"N/A"`), not skipped —
`item.get("productid", "N/A")` supplies a truthy default, so
`if name and descr and pid` passes. -/
theorem c3_counterexample :
    parse_inventory_nxos (.ok (mkInv [.obj [("name", .str "port 1"), ("desc", .str "SFP")]]))
      = .ok [(.str "port 1",
          { descr := .str "SFP", pid := .str "N/A", vid := .str "N/A",
            sn := .str "N/A", state := "Unknown" })]
    ∧ jhasKey (.obj [("name", .str "port 1"), ("desc", .str "SFP")]) "productid" = false :=
  ⟨rfl, rfl⟩

/-- C3 (amended): on the expected NX-OS structure, the row loop keeps
exactly the rows whose name, description and (defaulted) product ID are
truthy, keying each kept record by its name with the extracted
Description/PID/VID/SN; a row missing its name or description is silently
skipped; a missing product ID defaults to `"N/A"` and the row is still
kept (when name and description are truthy), as do missing VID and SN. -/
theorem c3_json_row_rules (rows : List JVal)
    (hobj : ∀ r ∈ rows, r.isObj = true)
    (hhash : ∀ r ∈ rows, rowKept r = true → (jget r "name" .null).hashable = true) :
    parse_inventory_nxos (.ok (mkInv rows)) = .ok (nxosRowsFold rows)
    ∧ (∀ r ∈ rows, jhasKey r "name" = false → rowKept r = false)
    ∧ (∀ r ∈ rows, jhasKey r "desc" = false → rowKept r = false)
    ∧ (∀ r ∈ rows, jhasKey r "productid" = false →
        rowKept r = (truthy (jget r "name" .null) && truthy (jget r "desc" .null))
        ∧ (rowRec r).pid = .str "N/A")
    ∧ (∀ r ∈ rows, jhasKey r "vid" = false → (rowRec r).vid = .str "N/A")
    ∧ (∀ r ∈ rows, jhasKey r "serialnum" = false → (rowRec r).sn = .str "N/A") := by
  have hmiss : ∀ (r : JVal) (k : String) (d : JVal), r.isObj = true →
      jhasKey r k = false → jget r k d = d := by
    intro r k d hro hk
    cases r <;> simp [JVal.isObj] at hro
    case obj kvs =>
      simp only [jhasKey] at hk
      simp only [jget]
      cases hlk : jlookup kvs k with
      | none => rfl
      | some v => rw [hlk] at hk; simp at hk
  refine ⟨?_, ?_, ?_, ?_, ?_, ?_⟩
  · have h0 : parse_inventory_nxos (.ok (mkInv rows)) = foldRows rows [] := rfl
    rw [h0, foldRows_ok rows [] hobj hhash]
    rfl
  · intro r hr hk
    rw [rowKept, hmiss r "name" .null (hobj r hr) hk]
    rfl
  · intro r hr hk
    rw [rowKept, hmiss r "desc" .null (hobj r hr) hk]
    simp [truthy]
  · intro r hr hk
    constructor
    · rw [rowKept, hmiss r "productid" (.str "N/A") (hobj r hr) hk]
      simp [truthy]
    · rw [show (rowRec r).pid = jget r "productid" (.str "N/A") from rfl,
        hmiss r "productid" (.str "N/A") (hobj r hr) hk]
  · intro r hr hk
    rw [show (rowRec r).vid = jget r "vid" (.str "N/A") from rfl,
      hmiss r "vid" (.str "N/A") (hobj r hr) hk]
  · intro r hr hk
    rw [show (rowRec r).sn = jget r "serialnum" (.str "N/A") from rfl,
      hmiss r "serialnum" (.str "N/A") (hobj r hr) hk]

/-- Witness for C3 (amended) at a three-row table: one complete row, one
row with no description (skipped), one row with no product ID (kept with
PID `"N/A"`). -/
theorem c3_json_row_rules_witness :
    parse_inventory_nxos (.ok (mkInv
      [.obj [("name", .str "Ethernet1/1"), ("desc", .str "10G optic"),
         ("productid", .str "SFP-10G"), ("vid", .str "V01"), ("serialnum", .str "S1")],
       .obj [("name", .str "Ethernet1/2")],
       .obj [("name", .str "Ethernet1/3"), ("desc", .str "spare optic")]]))
      = .ok (nxosRowsFold
        [.obj [("name", .str "Ethernet1/1"), ("desc", .str "10G optic"),
           ("productid", .str "SFP-10G"), ("vid", .str "V01"), ("serialnum", .str "S1")],
         .obj [("name", .str "Ethernet1/2")],
         .obj [("name", .str "Ethernet1/3"), ("desc", .str "spare optic")]])
    ∧ rowKept (.obj [("name", .str "Ethernet1/2")]) = false
    ∧ rowKept (.obj [("name", .str "Ethernet1/3"), ("desc", .str "spare optic")]) = true
    ∧ (rowRec (.obj [("name", .str "Ethernet1/3"), ("desc", .str "spare optic")])).pid
        = .str "N/A" :=
  ⟨(c3_json_row_rules
      [.obj [("name", .str "Ethernet1/1"), ("desc", .str "10G optic"),
         ("productid", .str "SFP-10G"), ("vid", .str "V01"), ("serialnum", .str "S1")],
       .obj [("name", .str "Ethernet1/2")],
       .obj [("name", .str "Ethernet1/3"), ("desc", .str "spare optic")]]
      (by decide) (by decide)).1,
    rfl, rfl, rfl⟩

/-! ## Claim C4 -/

theorem ftStep_map_fst_mem (acc : OpticsDict) (g : List (List Char)) (x : PyKey) :
    x ∈ (ftStep acc g).map Prod.fst ↔
      (∃ nm d p v sn, g = [nm, d, p, v, sn] ∧ keepName (String.mk nm) = true
        ∧ x = .str (String.mk nm))
      ∨ x ∈ acc.map Prod.fst := by
  rcases g with _ | ⟨n, _ | ⟨d, _ | ⟨p, _ | ⟨v, _ | ⟨sn, _ | ⟨w, tail⟩⟩⟩⟩⟩⟩
  · simp [ftStep]
  · simp [ftStep]
  · simp [ftStep]
  · simp [ftStep]
  · simp [ftStep]
  · cases hkeep : keepName (String.mk n) with
    | true =>
      simp only [ftStep, hkeep, if_pos]
      rw [mem_map_fst_upsert]
      constructor
      · rintro (rfl | hx)
        · exact Or.inl ⟨n, d, p, v, sn, rfl, hkeep, rfl⟩
        · exact Or.inr hx
      · rintro (⟨nm, d', p', v', sn', hgeq, hk, rfl⟩ | hx)
        · obtain ⟨rfl, rfl, rfl, rfl, rfl⟩ :
            n = nm ∧ d = d' ∧ p = p' ∧ v = v' ∧ sn = sn' := by
            simpa using hgeq
          exact Or.inl rfl
        · exact Or.inr hx
    | false =>
      simp only [ftStep, hkeep]
      rw [if_neg (by simp)]
      constructor
      · intro hx
        exact Or.inr hx
      · rintro (⟨nm, d', p', v', sn', hgeq, hk, rfl⟩ | hx)
        · obtain ⟨rfl, rfl, rfl, rfl, rfl⟩ :
            n = nm ∧ d = d' ∧ p = p' ∧ v = v' ∧ sn = sn' := by
            simpa using hgeq
          rw [hk] at hkeep
          cases hkeep
        · exact hx
  · simp [ftStep]

theorem freetextFold_foldl_mem : ∀ (ms : List (List (List Char)))
    (acc : OpticsDict) (x : PyKey),
    x ∈ (ms.foldl ftStep acc).map Prod.fst ↔
      x ∈ acc.map Prod.fst ∨ ∃ g ∈ ms, ∃ nm d p v sn,
        g = [nm, d, p, v, sn] ∧ keepName (String.mk nm) = true
          ∧ x = .str (String.mk nm)
  | [], acc, x => by simp
  | g :: ms, acc, x => by
    rw [List.foldl_cons, freetextFold_foldl_mem ms (ftStep acc g) x,
      ftStep_map_fst_mem acc g x]
    simp only [List.mem_cons]
    constructor
    · rintro ((hg | hacc) | ⟨g', hg', rest⟩)
      · exact Or.inr ⟨g, Or.inl rfl, hg⟩
      · exact Or.inl hacc
      · exact Or.inr ⟨g', Or.inr hg', rest⟩
    · rintro (hacc | ⟨g', (rfl | hg'), rest⟩)
      · exact Or.inl (Or.inr hacc)
      · exact Or.inl (Or.inl rest)
      · exact Or.inr ⟨g', hg', rest⟩

/-- C4: the free-text parser's keys are exactly the pattern-matched entries
whose name contains `port` case-insensitively, or `GigE`, or `TenGigE`
(the keep filter applied to the `finditer` matches); concretely, a sample
with one matching block named `"chassis"` and one named `"TenGigE0/0/0/1"`
yields only the latter, and a sample with no matching block yields an
empty result rather than an error. -/
theorem c4_freetext_name_filter :
    (∀ (output : String) (n : String),
      PyKey.str n ∈ (parse_inventory_freetext output).map Prod.fst ↔
        ∃ g ∈ finditer invPattern output.data, ∃ d p v sn,
          g = [n.data, d, p, v, sn] ∧ keepName n = true)
    ∧ parse_inventory_freetext
        "NAME: \"chassis\", DESCR: \"ASR 9001 Chassis\"\nPID: ASR-9001, VID: V01, SN: FOC1234ABCD\nNAME: \"TenGigE0/0/0/1\", DESCR: \"10G SFP+\"\nPID: SFP-10G-LR, VID: V02, SN: ABC1111\n"
      = [(.str "TenGigE0/0/0/1",
          { descr := .str "10G SFP+", pid := .str "SFP-10G-LR",
            vid := .str "V02", sn := .str "ABC1111", state := "Unknown" })]
    ∧ parse_inventory_freetext "Cisco IOS XR Software\nrouter uptime is 1 week\n"
      = [] := by
  refine ⟨?_, rfl, rfl⟩
  intro output n
  rw [show parse_inventory_freetext output
      = (finditer invPattern output.data).foldl ftStep [] from rfl,
    freetextFold_foldl_mem (finditer invPattern output.data) [] (.str n)]
  simp only [List.map_nil, List.not_mem_nil, false_or]
  constructor
  · rintro ⟨g, hg, nm, d, p, v, sn, hgeq, hkeep, hx⟩
    have hnm : n = String.mk nm := by injection hx
    have hnm' : nm = n.data := by rw [hnm]
    subst hnm'
    exact ⟨g, hg, d, p, v, sn, hgeq, hkeep⟩
  · rintro ⟨g, hg, d, p, v, sn, hgeq, hkeep⟩
    exact ⟨g, hg, n.data, d, p, v, sn, hgeq, hkeep, rfl⟩

end OpticInventory
